import Mathlib

/-!
Shallow embedding of the `powershell-script` crate: the script execution
engine (interpreter discovery, process launch, line streaming, result
classification) together with the output/error model and the fluent builder.

Machine strings are modelled as `List Char`; captured byte streams as
`List Nat` (each element one byte).  Environment variables and the
filesystem are explicit parameters (`EnvVars`, `Fs`), and the spawned child
process is an oracle (`SpawnResult`), so that the pure control flow of the
crate can be stated and proved.
-/

namespace PowershellScript

/-- Opaque model of `std::io::Error`: only its display text matters here. -/
structure IoError where
  msg : String
deriving DecidableEq, Repr

/-- Model of `std::process::ExitStatus`: the crate only ever consults
`status.success()`. -/
structure ExitStatus where
  success : Bool
deriving DecidableEq, Repr

/-- Model of `std::process::Output`: exit status plus captured raw bytes of
the child's stdout and stderr. -/
structure ProcessOutput where
  status : ExitStatus
  stdout : List Nat
  stderr : List Nat
deriving DecidableEq, Repr

/-! ### Lossy UTF-8 decoding (`String::from_utf8_lossy`)

Rust substitutes one U+FFFD replacement character per maximal invalid
subpart (the "substitution of maximal subparts" policy): when a sequence is
rejected, the bytes that formed a valid prefix of a multi-byte sequence are
consumed together with the rejection, otherwise only the leading byte is
consumed. -/

/-- The U+FFFD replacement character. -/
def replChar : Char := '�'

/-- Is `b` a UTF-8 continuation byte (`0x80..=0xBF`)? -/
def isCont (b : Nat) : Bool := 0x80 ≤ b && b ≤ 0xBF

/-- Valid second byte of a three-byte sequence with lead `b`. -/
def utf8Second3 (b b1 : Nat) : Bool :=
  (b == 0xE0 && 0xA0 ≤ b1 && b1 ≤ 0xBF) ||
  (b == 0xED && 0x80 ≤ b1 && b1 ≤ 0x9F) ||
  (b != 0xE0 && b != 0xED && isCont b1)

/-- Valid second byte of a four-byte sequence with lead `b`. -/
def utf8Second4 (b b1 : Nat) : Bool :=
  (b == 0xF0 && 0x90 ≤ b1 && b1 ≤ 0xBF) ||
  (b == 0xF4 && 0x80 ≤ b1 && b1 ≤ 0x8F) ||
  ((b == 0xF1 || b == 0xF2 || b == 0xF3) && isCont b1)

/-- Worker for the lossy decoder, structurally recursive on a fuel counter.
Every step consumes at least one byte and exactly one unit of fuel, so any
fuel of at least the list's length computes the full decoding; the fuel is
only a termination device, not part of the modelled algorithm. -/
def utf8LossyAux : Nat → List Nat → List Char
  | _, [] => []
  | 0, _ :: _ => []
  | fuel + 1, b :: rest =>
    if b < 0x80 then Char.ofNat b :: utf8LossyAux fuel rest
    else if b < 0xC2 then replChar :: utf8LossyAux fuel rest
    else if b ≤ 0xDF then
      match rest with
      | [] => [replChar]
      | b1 :: rest1 =>
        if isCont b1 then
          Char.ofNat ((b - 0xC0) * 0x40 + (b1 - 0x80)) :: utf8LossyAux fuel rest1
        else replChar :: utf8LossyAux fuel (b1 :: rest1)
    else if b ≤ 0xEF then
      match rest with
      | [] => [replChar]
      | b1 :: rest1 =>
        if utf8Second3 b b1 then
          match rest1 with
          | [] => [replChar]
          | b2 :: rest2 =>
            if isCont b2 then
              Char.ofNat ((b - 0xE0) * 0x1000 + (b1 - 0x80) * 0x40 + (b2 - 0x80)) ::
                utf8LossyAux fuel rest2
            else replChar :: utf8LossyAux fuel (b2 :: rest2)
        else replChar :: utf8LossyAux fuel (b1 :: rest1)
    else if b ≤ 0xF4 then
      match rest with
      | [] => [replChar]
      | b1 :: rest1 =>
        if utf8Second4 b b1 then
          match rest1 with
          | [] => [replChar]
          | b2 :: rest2 =>
            if isCont b2 then
              match rest2 with
              | [] => [replChar]
              | b3 :: rest3 =>
                if isCont b3 then
                  Char.ofNat ((b - 0xF0) * 0x40000 + (b1 - 0x80) * 0x1000 +
                    (b2 - 0x80) * 0x40 + (b3 - 0x80)) :: utf8LossyAux fuel rest3
                else replChar :: utf8LossyAux fuel (b3 :: rest3)
            else replChar :: utf8LossyAux fuel (b2 :: rest2)
        else replChar :: utf8LossyAux fuel (b1 :: rest1)
    else replChar :: utf8LossyAux fuel rest

/-- The character stream produced by lossy UTF-8 decoding of a byte list:
one character (or one replacement character) per accepted sequence or
maximal invalid subpart. -/
def utf8LossyChars (bs : List Nat) : List Char := utf8LossyAux bs.length bs

/-- Model of `String::from_utf8_lossy(bytes).to_string()`. -/
def fromUtf8Lossy (bs : List Nat) : String := String.mk (utf8LossyChars bs)

/-! ### `Output` (src/output.rs) -/

/-- The crate's `Output` wrapper: the raw `process::Output` plus the cached
success flag. -/
structure Output where
  inner : ProcessOutput
  success : Bool
deriving DecidableEq, Repr

/-- `Output::stdout`: `None` for an empty capture, otherwise the lossy
decoding of the captured bytes. -/
def Output.stdout (o : Output) : Option String :=
  if o.inner.stdout.isEmpty then none else some (fromUtf8Lossy o.inner.stdout)

/-- `Output::stderr`: `None` for an empty capture, otherwise the lossy
decoding of the captured bytes. -/
def Output.stderr (o : Output) : Option String :=
  if o.inner.stderr.isEmpty then none else some (fromUtf8Lossy o.inner.stderr)

/-- `Output::into_inner`. -/
def Output.into_inner (o : Output) : ProcessOutput := o.inner

/-- `impl From<process::Output> for Output`. -/
def Output.fromProcess (p : ProcessOutput) : Output :=
  { inner := p, success := p.status.success }

/-- `impl fmt::Display for Output`: stdout text (when present) followed by
stderr text (when present). -/
def Output.display (o : Output) : String :=
  (match o.stdout with
   | some s => s
   | none => "") ++
  (match o.stderr with
   | some s => s
   | none => "")

/-! ### `PsError` (src/error.rs) -/

/-- The crate's error enum. -/
inductive PsError where
  | Powershell (out : Output)
  | Io (e : IoError)
  | PowershellNotFound
  | ChildStdinNotFound
deriving DecidableEq, Repr

/-- `impl fmt::Display for PsError`. -/
def PsError.display : PsError → String
  | .Powershell out => out.display
  | .Io e => e.msg
  | .PowershellNotFound => "Failed to find powershell on this system"
  | .ChildStdinNotFound => "Failed to acquire a handle to stdin in the child process."

/-! ### Builder (src/builder.rs)

The `VecDeque` of arguments is a `List String`; `push_front` is cons and
`make_contiguous().to_vec()` is the identity on the list. -/

/-- The configured script runner (`PsScript` fields shared by both target
modules). -/
structure PsScript where
  args : List String
  hidden : Bool
  print_commands : Bool
deriving DecidableEq, Repr

/-- The fluent builder's state. -/
structure PsScriptBuilder where
  args : List String
  no_profile : Bool
  non_interactive : Bool
  hidden : Bool
  print_commands : Bool
deriving DecidableEq, Repr

/-- `PsScriptBuilder::default`: base args `["-Command", "-"]`, the three
boolean options on, `print_commands` off. -/
def PsScriptBuilder.default : PsScriptBuilder :=
  { args := ["-Command", "-"]
    no_profile := true
    non_interactive := true
    hidden := true
    print_commands := false }

/-- `PsScriptBuilder::new` delegates to `default`. -/
def PsScriptBuilder.new : PsScriptBuilder := PsScriptBuilder.default

/-- `PsScriptBuilder::build`: pushes `-NonInteractive`, then `-NoProfile`,
to the front of the argument deque when the respective options are set. -/
def PsScriptBuilder.build (b : PsScriptBuilder) : PsScript :=
  let args0 := b.args
  let args1 := if b.non_interactive then "-NonInteractive" :: args0 else args0
  let args2 := if b.no_profile then "-NoProfile" :: args1 else args1
  { args := args2, hidden := b.hidden, print_commands := b.print_commands }

/-! ### `str::lines` (used by the streamer)

Rust's `str::lines` splits at `\n`, additionally stripping a `\r` directly
before each `\n`; a final line without terminator is kept, and a trailing
terminator produces no extra empty line.  The accumulator holds the current
line reversed. -/

/-- Worker for `rustLines`; `acc` is the current (unterminated) line in
reverse order, so its head is the character seen last. -/
def rustLinesAux : List Char → List Char → List (List Char)
  | [], acc => if acc.isEmpty then [] else [acc.reverse]
  | c :: rest, acc =>
    if c = '\n' then
      (if acc.head? = some '\r' then acc.tail.reverse else acc.reverse) ::
        rustLinesAux rest []
    else rustLinesAux rest (c :: acc)

/-- Model of `script.lines()` on a script given as a character list. -/
def rustLines (s : List Char) : List (List Char) := rustLinesAux s []

/-- Join line bodies with a fixed separator (used to state how the streamer
treats `\r\n` versus `\n` separated scripts). -/
def joinSep (sep : List Char) : List (List Char) → List Char
  | [] => []
  | [l] => l
  | l :: l2 :: rest => l ++ sep ++ joinSep sep (l2 :: rest)

/-! ### The streaming loop

```
for line in script.lines() {
    if print_commands { println!("{}", line) };
    writeln!(stdin, "{}", line)?;
}
```

modelled as the trace of write events it performs: `println!` appends a
newline and writes to the host's stdout, `writeln!` appends a newline and
writes to the child's stdin.  (Write errors are not modelled: the claims
below concern what is written.) -/

/-- One write performed by the streaming loop. -/
inductive WriteEvent where
  | host (data : List Char)
  | child (data : List Char)
deriving DecidableEq, Repr

/-- The ordered trace of writes the loop performs on a list of lines. -/
def streamScript (print_commands : Bool) : List (List Char) → List WriteEvent
  | [] => []
  | line :: rest =>
    (if print_commands then [WriteEvent.host (line ++ ['\n'])] else []) ++
    WriteEvent.child (line ++ ['\n']) :: streamScript print_commands rest

/-- The data written to the host's own stdout, in order. -/
def hostWrites (evs : List WriteEvent) : List (List Char) :=
  evs.filterMap fun e =>
    match e with
    | .host d => some d
    | .child _ => none

/-- The data written to the child's stdin, in order. -/
def childWrites (evs : List WriteEvent) : List (List Char) :=
  evs.filterMap fun e =>
    match e with
    | .host _ => none
    | .child d => some d

/-! ### Interpreter locator (src/target/unix.rs, src/target/windows.rs)

`env::var` is an explicit map from variable names to values; `Path.exists`
is an explicit predicate on paths.  `Option.unwrap` on `None` is a Rust
panic, modelled by the distinguished `RunOutcome.panicked`. -/

/-- The process environment: variable name to value (`env::var`). -/
def EnvVars : Type := String → Option (List Char)

/-- The filesystem existence oracle (`Path::exists`). -/
def Fs : Type := List Char → Bool

/-- `str::split(sep)` on a character list (adjacent separators yield empty
pieces, and the empty string yields one empty piece). -/
def splitChar (sep : Char) : List Char → List (List Char)
  | [] => [[]]
  | c :: rest =>
    if c = sep then [] :: splitChar sep rest
    else
      match splitChar sep rest with
      | [] => [[c]]
      | h :: t => (c :: h) :: t

/-- `Path::new(dir).join(name)` for slash paths.  (Drive-prefixed absolute
names are not modelled; the crate only joins relative literal names.) -/
def unixJoin (dir name : List Char) : List Char :=
  if name.head? = some '/' then name
  else if dir.isEmpty then name
  else if dir.getLast? = some '/' then dir ++ name
  else dir ++ '/' :: name

/-- `Path::new(dir).join(name)` for backslash paths.  (Drive-prefixed
absolute names are not modelled; the crate only joins relative literal
names.) -/
def winJoin (dir name : List Char) : List Char :=
  if name.head? = some '\\' || name.head? = some '/' then name
  else if dir.isEmpty then name
  else if dir.getLast? = some '\\' || dir.getLast? = some '/' then dir ++ name
  else dir ++ '\\' :: name

/-- The interpreter name on the backslash-path platform without the `core`
feature (`POWERSHELL_NAME`). -/
def POWERSHELL_NAME_WINDOWS : List Char := "PowerShell".data

/-- The interpreter name elsewhere (PowerShell Core, `POWERSHELL_NAME`). -/
def POWERSHELL_NAME_UNIX : List Char := "pwsh".data

/-- Outcome of a fallible crate operation: `Ok`, `Err`, or a Rust panic
(`Option::unwrap` on `None`, which aborts the calling program). -/
inductive RunOutcome (α : Type) where
  | ok (a : α)
  | err (e : PsError)
  | panicked
deriving DecidableEq, Repr

/-- `is_program_on_path` (unix target): `None` when `PATH` is absent,
otherwise whether some `PATH` directory contains an entry with the given
name.  The source loop returns on the first hit, which is `List.any`. -/
def is_program_on_path_unix (env : EnvVars) (fs : Fs) (program_name : List Char) :
    Option Bool :=
  match env "PATH" with
  | none => none
  | some system_path =>
    some ((splitChar ':' system_path).any fun dir => fs (unixJoin dir program_name))

/-- `is_program_on_path` (windows target): same as unix but with `;` as the
path-list separator and backslash joins. -/
def is_program_on_path_windows (env : EnvVars) (fs : Fs) (program_name : List Char) :
    Option Bool :=
  match env "PATH" with
  | none => none
  | some system_path =>
    some ((splitChar ';' system_path).any fun dir => fs (winJoin dir program_name))

/-- `get_powershell_path` (unix target): `is_program_on_path(...).unwrap()`
panics when `PATH` is absent; otherwise `Ok` of the bare name on a hit and
`Err(PowershellNotFound)` on a miss. -/
def get_powershell_path_unix (env : EnvVars) (fs : Fs) : RunOutcome (List Char) :=
  match is_program_on_path_unix env fs POWERSHELL_NAME_UNIX with
  | none => .panicked
  | some true => .ok POWERSHELL_NAME_UNIX
  | some false => .err .PowershellNotFound

/-- The fallback path suffix joined onto `SYSTEMROOT` by the windows
locator. -/
def SYSTEM_POWERSHELL_SUFFIX : List Char :=
  "System32\\WindowsPowerShell\\v1.0\\powershell.exe".data

/-- `get_powershell_path` (windows target): `PATH` search first (panicking
via `unwrap` when `PATH` is absent), then the
`%SYSTEMROOT%\System32\WindowsPowerShell\v1.0\powershell.exe` fallback.
`to_string_lossy` on a path built from valid strings is the identity. -/
def get_powershell_path_windows (env : EnvVars) (fs : Fs) : RunOutcome (List Char) :=
  match is_program_on_path_windows env fs POWERSHELL_NAME_WINDOWS with
  | none => .panicked
  | some true => .ok POWERSHELL_NAME_WINDOWS
  | some false =>
    match env "SYSTEMROOT" with
    | none => .err .PowershellNotFound
    | some system_root =>
      let path_candidate := winJoin system_root SYSTEM_POWERSHELL_SUFFIX
      if fs path_candidate then .ok path_candidate else .err .PowershellNotFound

/-! ### Process launch and `run_raw` / `run`

The spawned child is an oracle: spawning either fails with an I/O error or
yields a child whose stdin handle may or may not be available and whose
final `process::Output` is a function of the bytes written to its stdin.
`run_raw` is modelled as the trace of what the source performs: its
outcome, the host/child write streams, and whether a spawn was attempted. -/

/-- The spawned child: stdin availability and the terminal
`wait_with_output` result as a function of the bytes fed to stdin. -/
structure Child where
  stdin_ok : Bool
  wait : List Char → RunOutcome ProcessOutput

/-- Result of `Command::spawn`. -/
inductive SpawnResult where
  | ioErr (e : IoError)
  | spawned (c : Child)

/-- The spawn oracle: executable path and argument list to spawn result. -/
def Spawner : Type := List Char → List String → SpawnResult

/-- The observable trace of one `run_raw` call. -/
structure RawTrace where
  outcome : RunOutcome ProcessOutput
  host_stdout : List (List Char)
  child_stdin : List (List Char)
  spawned : Bool
deriving DecidableEq, Repr

/-- `PsScript::run_raw` (windows target): locate the interpreter, spawn it
with the configured args, acquire stdin, stream the script line by line,
wait for the output.  Locator failure returns before any spawn attempt. -/
def PsScript.run_raw_windows (ps : PsScript) (env : EnvVars) (fs : Fs)
    (spawn : Spawner) (script : List Char) : RawTrace :=
  match get_powershell_path_windows env fs with
  | .panicked => { outcome := .panicked, host_stdout := [], child_stdin := [], spawned := false }
  | .err e => { outcome := .err e, host_stdout := [], child_stdin := [], spawned := false }
  | .ok path =>
    match spawn path ps.args with
    | .ioErr e =>
      { outcome := .err (.Io e), host_stdout := [], child_stdin := [], spawned := true }
    | .spawned c =>
      if c.stdin_ok then
        let evs := streamScript ps.print_commands (rustLines script)
        { outcome := c.wait (childWrites evs).flatten
          host_stdout := hostWrites evs
          child_stdin := childWrites evs
          spawned := true }
      else
        { outcome := .err .ChildStdinNotFound, host_stdout := [], child_stdin := [], spawned := true }

/-- `PsScript::run_raw` (unix target): identical control flow with the unix
locator; the `hidden` flag is a no-op on this target. -/
def PsScript.run_raw_unix (ps : PsScript) (env : EnvVars) (fs : Fs)
    (spawn : Spawner) (script : List Char) : RawTrace :=
  match get_powershell_path_unix env fs with
  | .panicked => { outcome := .panicked, host_stdout := [], child_stdin := [], spawned := false }
  | .err e => { outcome := .err e, host_stdout := [], child_stdin := [], spawned := false }
  | .ok path =>
    match spawn path ps.args with
    | .ioErr e =>
      { outcome := .err (.Io e), host_stdout := [], child_stdin := [], spawned := true }
    | .spawned c =>
      if c.stdin_ok then
        let evs := streamScript ps.print_commands (rustLines script)
        { outcome := c.wait (childWrites evs).flatten
          host_stdout := hostWrites evs
          child_stdin := childWrites evs
          spawned := true }
      else
        { outcome := .err .ChildStdinNotFound, host_stdout := [], child_stdin := [], spawned := true }

/-- The classification step shared by both targets' `PsScript::run`: wrap a
successful `run_raw` result in `Output` and split on `output.success`. -/
def classify (raw : RunOutcome ProcessOutput) : RunOutcome Output :=
  match raw with
  | .panicked => .panicked
  | .err e => .err e
  | .ok proc_output =>
    let output := Output.fromProcess proc_output
    if output.success then .ok output else .err (.Powershell output)

/-- `PsScript::run` (windows target). -/
def PsScript.run_windows (ps : PsScript) (env : EnvVars) (fs : Fs)
    (spawn : Spawner) (script : List Char) : RunOutcome Output :=
  classify (ps.run_raw_windows env fs spawn script).outcome

/-- `PsScript::run` (unix target). -/
def PsScript.run_unix (ps : PsScript) (env : EnvVars) (fs : Fs)
    (spawn : Spawner) (script : List Char) : RunOutcome Output :=
  classify (ps.run_raw_unix env fs spawn script).outcome

/-! ## Helper lemmas -/

/-- With positive fuel, decoding a nonempty byte list yields at least one
character (every branch of the decoder emits one). -/
theorem utf8LossyAux_cons_length_pos (fuel b : Nat) (rest : List Nat) :
    0 < (utf8LossyAux (fuel + 1) (b :: rest)).length := by
  unfold utf8LossyAux
  repeat' split
  all_goals simp

/-- Lossy decoding of a nonempty byte list is a nonempty string. -/
theorem fromUtf8Lossy_cons_length_pos (b : Nat) (bs : List Nat) :
    0 < (fromUtf8Lossy (b :: bs)).length :=
  utf8LossyAux_cons_length_pos bs.length b bs

/-- The echoing streamer interleaves, per line, one host write followed by
one child write. -/
theorem streamScript_true_eq (ls : List (List Char)) :
    streamScript true ls =
      ls.flatMap fun l => [WriteEvent.host (l ++ ['\n']), WriteEvent.child (l ++ ['\n'])] := by
  induction ls with
  | nil => rfl
  | cons l rest ih => simp [streamScript, ih]

/-- The silent streamer performs exactly one child write per line. -/
theorem streamScript_false_eq (ls : List (List Char)) :
    streamScript false ls = ls.map fun l => WriteEvent.child (l ++ ['\n']) := by
  induction ls with
  | nil => rfl
  | cons l rest ih => simp [streamScript, ih]

/-- Host writes of the echoing streamer: every line, in order, newline
terminated. -/
theorem hostWrites_streamScript_true (ls : List (List Char)) :
    hostWrites (streamScript true ls) = ls.map fun l => l ++ ['\n'] := by
  induction ls with
  | nil => rfl
  | cons l rest ih => simp [streamScript, hostWrites, ih]; simpa [hostWrites] using ih

/-- Host writes of the silent streamer: none. -/
theorem hostWrites_streamScript_false (ls : List (List Char)) :
    hostWrites (streamScript false ls) = [] := by
  induction ls with
  | nil => rfl
  | cons l rest ih => simpa [streamScript, hostWrites] using ih

/-- Child writes are every line, in order, newline terminated, for either
echo mode. -/
theorem childWrites_streamScript (pc : Bool) (ls : List (List Char)) :
    childWrites (streamScript pc ls) = ls.map fun l => l ++ ['\n'] := by
  induction ls with
  | nil => rfl
  | cons l rest ih =>
    cases pc <;> simp [streamScript, childWrites] <;> simpa [childWrites] using ih

/-- Consuming a newline-free chunk just transfers it (reversed) onto the
accumulator. -/
theorem rustLinesAux_append_of_no_newline (l : List Char) (hl : '\n' ∉ l) :
    ∀ rest acc, rustLinesAux (l ++ rest) acc = rustLinesAux rest (l.reverse ++ acc) := by
  induction l with
  | nil => intro rest acc; simp
  | cons c l' ih =>
    intro rest acc
    have hc : ¬ c = '\n' := fun h => hl (h ▸ List.mem_cons_self c l')
    have hl' : '\n' ∉ l' := fun h => hl (List.mem_cons_of_mem c h)
    simp only [List.cons_append, rustLinesAux, if_neg hc, List.reverse_cons,
      List.append_assoc, List.nil_append]
    exact ih hl' rest (c :: acc)

/-- Core of the CRLF/LF equivalence: when no line body contains `\n` or
ends in `\r`, `str::lines` does not distinguish the two separators. -/
theorem rustLines_joinSep_crlf_eq_lf (ls : List (List Char))
    (h : ∀ l ∈ ls, '\n' ∉ l ∧ l.getLast? ≠ some '\r') :
    rustLines (joinSep ['\r', '\n'] ls) = rustLines (joinSep ['\n'] ls) := by
  induction ls with
  | nil => rfl
  | cons l rest ih =>
    cases rest with
    | nil => rfl
    | cons l2 rest2 =>
      obtain ⟨hln, hlr⟩ := h l (List.mem_cons_self l (l2 :: rest2))
      have hrest : ∀ x ∈ l2 :: rest2, '\n' ∉ x ∧ x.getLast? ≠ some '\r' :=
        fun x hx => h x (List.mem_cons_of_mem l hx)
      have hnotr : ¬ (l.reverse.head? = some '\r') := by
        rw [List.head?_reverse]; exact hlr
      show rustLinesAux (l ++ ['\r', '\n'] ++ joinSep ['\r', '\n'] (l2 :: rest2)) [] =
        rustLinesAux (l ++ ['\n'] ++ joinSep ['\n'] (l2 :: rest2)) []
      rw [List.append_assoc, List.append_assoc,
        rustLinesAux_append_of_no_newline l hln, rustLinesAux_append_of_no_newline l hln]
      have hx : ¬ ('\r' : Char) = '\n' := by decide
      simp only [List.append_nil, List.cons_append, List.nil_append, rustLinesAux,
        List.head?_cons, Option.some.injEq, List.tail_cons, List.reverse_reverse,
        List.append_eq, if_neg hx, if_neg hnotr, reduceIte]
      have ih' := ih hrest
      simp only [rustLines] at ih'
      rw [ih']

/-! ## Claim theorems -/

/-- C9: wrapping a `process::Output` and unwrapping it again is the
identity: `Output::from` stores the raw value unchanged and `into_inner`
returns it. -/
theorem claim_C9_from_into_inner_round_trip (p : ProcessOutput) :
    (Output.fromProcess p).into_inner = p := rfl

/-- C2: `run` classifies a terminated child by exit status alone — `Ok` of
the wrapped output when the status is a success, otherwise
`Err(PsError::Powershell(..))` of the very same wrapped output, whose
stdout/stderr captures are decoded identically in both branches. -/
theorem claim_C2_run_classifies_by_status (p : ProcessOutput) :
    classify (.ok p) =
      (if p.status.success then RunOutcome.ok (Output.fromProcess p)
       else RunOutcome.err (PsError.Powershell (Output.fromProcess p))) ∧
    (Output.fromProcess p).stdout =
      (if p.stdout.isEmpty then none else some (fromUtf8Lossy p.stdout)) ∧
    (Output.fromProcess p).stderr =
      (if p.stderr.isEmpty then none else some (fromUtf8Lossy p.stderr)) := by
  refine ⟨rfl, rfl, rfl⟩

/-- C8: the `Ok` branch of `run` always carries an `Output` with
`success() = true`, the `PsError::Powershell` branch always carries one
with `success() = false`, and in both the stored flag equals the child's
exit-status success at construction (the model is immutable, so it is never
modified afterwards). -/
theorem claim_C8_success_invariant (p q : ProcessOutput)
    (hp : p.status.success = true) (hq : q.status.success = false) :
    classify (.ok p) = .ok (Output.fromProcess p) ∧
    (Output.fromProcess p).success = true ∧
    classify (.ok q) = .err (.Powershell (Output.fromProcess q)) ∧
    (Output.fromProcess q).success = false ∧
    (Output.fromProcess p).success = p.status.success ∧
    (Output.fromProcess q).success = q.status.success := by
  refine ⟨?_, hp, ?_, hq, rfl, rfl⟩
  · simp [classify, Output.fromProcess, hp]
  · simp [classify, Output.fromProcess, hq]

/-- Witness for C8 at concrete successful and failing process outputs. -/
theorem claim_C8_success_invariant_witness :
    classify (.ok ⟨⟨true⟩, [104], []⟩) = .ok (Output.fromProcess ⟨⟨true⟩, [104], []⟩) ∧
    (Output.fromProcess ⟨⟨true⟩, [104], []⟩).success = true ∧
    classify (.ok ⟨⟨false⟩, [104], [101]⟩) =
      .err (.Powershell (Output.fromProcess ⟨⟨false⟩, [104], [101]⟩)) ∧
    (Output.fromProcess ⟨⟨false⟩, [104], [101]⟩).success = false ∧
    (Output.fromProcess ⟨⟨true⟩, [104], []⟩).success = (⟨⟨true⟩, [104], []⟩ : ProcessOutput).status.success ∧
    (Output.fromProcess ⟨⟨false⟩, [104], [101]⟩).success = (⟨⟨false⟩, [104], [101]⟩ : ProcessOutput).status.success :=
  claim_C8_success_invariant ⟨⟨true⟩, [104], []⟩ ⟨⟨false⟩, [104], [101]⟩ rfl rfl

/-- C7: the `Display` rendering of an `Output` is its stdout text followed
by its stderr text (each contributing nothing when absent), and rendering
`PsError::Powershell(out)` gives exactly the rendering of `out`. -/
theorem claim_C7_display_concatenates (o : Output) :
    Output.display o = (o.stdout.getD "") ++ (o.stderr.getD "") ∧
    PsError.display (.Powershell o) = Output.display o := by
  refine ⟨?_, rfl⟩
  cases h1 : o.stdout <;> cases h2 : o.stderr <;> simp [Output.display, h1, h2]

/-- C1 (refuting demonstration): in an environment with no `PATH` variable
at all, `get_powershell_path` does not treat the search as "not found" — on
both targets `is_program_on_path` returns `None` and the
`.unwrap()` in `get_powershell_path` panics, aborting the program, and the
panic propagates through `run_raw` before any spawn attempt. -/
theorem claim_C1_path_absent_panics :
    get_powershell_path_unix (fun _ => none) (fun _ => false) = .panicked ∧
    get_powershell_path_windows (fun _ => none) (fun _ => false) = .panicked ∧
    ({ args := ["-NoProfile", "-Command", "-"], hidden := true, print_commands := false } :
        PsScript).run_raw_unix (fun _ => none) (fun _ => false)
        (fun _ _ => .ioErr ⟨""⟩) [] =
      { outcome := .panicked, host_stdout := [], child_stdin := [], spawned := false } ∧
    ({ args := ["-NoProfile", "-Command", "-"], hidden := true, print_commands := false } :
        PsScript).run_raw_windows (fun _ => none) (fun _ => false)
        (fun _ _ => .ioErr ⟨""⟩) [] =
      { outcome := .panicked, host_stdout := [], child_stdin := [], spawned := false } :=
  ⟨rfl, rfl, rfl, rfl⟩

/-- C3: for any builder state with both `no_profile` and `non_interactive`
set, `build` places `-NoProfile` first, then `-NonInteractive`, in front of
the pre-existing argument list — which for the (only constructible) default
state is the terminal stdin-read pair `["-Command", "-"]`. -/
theorem claim_C3_flag_order (b : PsScriptBuilder)
    (h1 : b.no_profile = true) (h2 : b.non_interactive = true) :
    (PsScriptBuilder.build b).args = "-NoProfile" :: "-NonInteractive" :: b.args ∧
    PsScriptBuilder.default.args = ["-Command", "-"] ∧
    (PsScriptBuilder.build PsScriptBuilder.default).args =
      ["-NoProfile", "-NonInteractive", "-Command", "-"] := by
  refine ⟨?_, rfl, rfl⟩
  simp [PsScriptBuilder.build, h1, h2]

/-- Witness for C3 at the default builder state. -/
theorem claim_C3_flag_order_witness :
    (PsScriptBuilder.build PsScriptBuilder.default).args =
      "-NoProfile" :: "-NonInteractive" :: PsScriptBuilder.default.args ∧
    PsScriptBuilder.default.args = ["-Command", "-"] ∧
    (PsScriptBuilder.build PsScriptBuilder.default).args =
      ["-NoProfile", "-NonInteractive", "-Command", "-"] :=
  claim_C3_flag_order PsScriptBuilder.default rfl rfl

/-- C5: the streamer visits the script's lines in original order; with echo
on, each line (newline-terminated) is written to the host's stdout and then
to the child's stdin; with echo off, nothing is written to the host's
stdout, and the child receives exactly the same lines either way. -/
theorem claim_C5_echo_then_forward (script : List Char) :
    streamScript true (rustLines script) =
      (rustLines script).flatMap
        (fun l => [WriteEvent.host (l ++ ['\n']), WriteEvent.child (l ++ ['\n'])]) ∧
    streamScript false (rustLines script) =
      (rustLines script).map (fun l => WriteEvent.child (l ++ ['\n'])) ∧
    hostWrites (streamScript false (rustLines script)) = [] ∧
    hostWrites (streamScript true (rustLines script)) =
      (rustLines script).map (fun l => l ++ ['\n']) ∧
    childWrites (streamScript true (rustLines script)) =
      (rustLines script).map (fun l => l ++ ['\n']) ∧
    childWrites (streamScript false (rustLines script)) =
      (rustLines script).map (fun l => l ++ ['\n']) :=
  ⟨streamScript_true_eq _, streamScript_false_eq _, hostWrites_streamScript_false _,
    hostWrites_streamScript_true _, childWrites_streamScript true _,
    childWrites_streamScript false _⟩

/-- C6: `Output::stdout`/`Output::stderr` return `None` exactly for an
empty byte capture, otherwise `Some` of the lossy UTF-8 decoding — which is
never the empty string, and which replaces invalid byte sequences with
U+FFFD instead of failing (witnessed by the decoding of the invalid byte
`0xFF`). -/
theorem claim_C6_optional_lossy_capture (o : Output) (b : Nat) (bs : List Nat) :
    (o.stdout = none ↔ o.inner.stdout = []) ∧
    (o.stderr = none ↔ o.inner.stderr = []) ∧
    (o.stdout = if o.inner.stdout.isEmpty then none
      else some (fromUtf8Lossy o.inner.stdout)) ∧
    (o.stderr = if o.inner.stderr.isEmpty then none
      else some (fromUtf8Lossy o.inner.stderr)) ∧
    o.stdout ≠ some "" ∧
    o.stderr ≠ some "" ∧
    0 < (fromUtf8Lossy (b :: bs)).length ∧
    fromUtf8Lossy [255] = "�" := by
  have hne : ∀ l : List Nat, ¬ l.isEmpty = true → fromUtf8Lossy l ≠ "" := by
    intro l hl hcon
    match l with
    | [] => exact hl rfl
    | x :: xs =>
      have := fromUtf8Lossy_cons_length_pos x xs
      rw [hcon] at this
      simp at this
  refine ⟨?_, ?_, ?_, ?_, ?_, ?_, fromUtf8Lossy_cons_length_pos b bs, by decide⟩
  · unfold Output.stdout
    split <;> simp_all [List.isEmpty_iff]
  · unfold Output.stderr
    split <;> simp_all [List.isEmpty_iff]
  · rfl
  · rfl
  · unfold Output.stdout
    split
    · simp
    · next hemp => simpa using hne o.inner.stdout (by simpa using hemp)
  · unfold Output.stderr
    split
    · simp
    · next hemp => simpa using hne o.inner.stderr (by simpa using hemp)

/-- Witness for C6 at a concrete `Output` (invalid stdout bytes, empty
stderr) and concrete nonempty byte list. -/
theorem claim_C6_optional_lossy_capture_witness :
    ((Output.fromProcess ⟨⟨true⟩, [255], []⟩).stdout = none ↔
      (Output.fromProcess ⟨⟨true⟩, [255], []⟩).inner.stdout = []) ∧
    ((Output.fromProcess ⟨⟨true⟩, [255], []⟩).stderr = none ↔
      (Output.fromProcess ⟨⟨true⟩, [255], []⟩).inner.stderr = []) ∧
    ((Output.fromProcess ⟨⟨true⟩, [255], []⟩).stdout =
      if (Output.fromProcess ⟨⟨true⟩, [255], []⟩).inner.stdout.isEmpty then none
      else some (fromUtf8Lossy (Output.fromProcess ⟨⟨true⟩, [255], []⟩).inner.stdout)) ∧
    ((Output.fromProcess ⟨⟨true⟩, [255], []⟩).stderr =
      if (Output.fromProcess ⟨⟨true⟩, [255], []⟩).inner.stderr.isEmpty then none
      else some (fromUtf8Lossy (Output.fromProcess ⟨⟨true⟩, [255], []⟩).inner.stderr)) ∧
    (Output.fromProcess ⟨⟨true⟩, [255], []⟩).stdout ≠ some "" ∧
    (Output.fromProcess ⟨⟨true⟩, [255], []⟩).stderr ≠ some "" ∧
    0 < (fromUtf8Lossy (255 :: [104])).length ∧
    fromUtf8Lossy [255] = "�" :=
  claim_C6_optional_lossy_capture (Output.fromProcess ⟨⟨true⟩, [255], []⟩) 255 [104]

/-- C4: when `PATH` is set but none of its directories contains an entry
named after the interpreter, and the `SYSTEMROOT` fallback is unset or its
candidate path does not exist, `run_raw` (windows) returns
`PowershellNotFound` without spawning — for every spawn oracle, with
`spawned = false` — and `run` surfaces the same error; conversely, as soon
as any `PATH` directory contains an entry with the matching name (existence
only — the oracle `fs` never sees an executability or file-type query),
resolution returns the bare program name on both targets. -/
theorem claim_C4_not_found_vs_bare_name (ps : PsScript) (script : List Char)
    (spawn : Spawner) (env : EnvVars) (fs : Fs) (p : List Char)
    (hPATH : env "PATH" = some p)
    (hNoDir : ∀ d ∈ splitChar ';' p, fs (winJoin d POWERSHELL_NAME_WINDOWS) = false)
    (hNoRoot : ∀ root, env "SYSTEMROOT" = some root →
      fs (winJoin root SYSTEM_POWERSHELL_SUFFIX) = false)
    (env2 : EnvVars) (fs2 : Fs) (p2 d2 : List Char)
    (hPATH2 : env2 "PATH" = some p2)
    (hMem2 : d2 ∈ splitChar ';' p2)
    (hHit2 : fs2 (winJoin d2 POWERSHELL_NAME_WINDOWS) = true)
    (env3 : EnvVars) (fs3 : Fs) (p3 d3 : List Char)
    (hPATH3 : env3 "PATH" = some p3)
    (hMem3 : d3 ∈ splitChar ':' p3)
    (hHit3 : fs3 (unixJoin d3 POWERSHELL_NAME_UNIX) = true) :
    (ps.run_raw_windows env fs spawn script).outcome = .err .PowershellNotFound ∧
    (ps.run_raw_windows env fs spawn script).spawned = false ∧
    ps.run_windows env fs spawn script = .err .PowershellNotFound ∧
    get_powershell_path_windows env2 fs2 = .ok POWERSHELL_NAME_WINDOWS ∧
    get_powershell_path_unix env3 fs3 = .ok POWERSHELL_NAME_UNIX := by
  have hAny : (splitChar ';' p).any (fun d => fs (winJoin d POWERSHELL_NAME_WINDOWS)) = false := by
    rw [List.any_eq_false]
    intro d hd
    simp [hNoDir d hd]
  have hProg : is_program_on_path_windows env fs POWERSHELL_NAME_WINDOWS = some false := by
    simp [is_program_on_path_windows, hPATH, hAny]
  have hGP : get_powershell_path_windows env fs = .err .PowershellNotFound := by
    unfold get_powershell_path_windows
    rw [hProg]
    cases hS : env "SYSTEMROOT" with
    | none => rfl
    | some root => simp [hNoRoot root hS]
  have hGP2 : get_powershell_path_windows env2 fs2 = .ok POWERSHELL_NAME_WINDOWS := by
    have hAny2 : (splitChar ';' p2).any
        (fun d => fs2 (winJoin d POWERSHELL_NAME_WINDOWS)) = true :=
      List.any_eq_true.mpr ⟨d2, hMem2, hHit2⟩
    unfold get_powershell_path_windows is_program_on_path_windows
    rw [hPATH2]
    simp [hAny2]
  have hGP3 : get_powershell_path_unix env3 fs3 = .ok POWERSHELL_NAME_UNIX := by
    have hAny3 : (splitChar ':' p3).any
        (fun d => fs3 (unixJoin d POWERSHELL_NAME_UNIX)) = true :=
      List.any_eq_true.mpr ⟨d3, hMem3, hHit3⟩
    unfold get_powershell_path_unix is_program_on_path_unix
    rw [hPATH3]
    simp [hAny3]
  refine ⟨?_, ?_, ?_, hGP2, hGP3⟩
  · unfold PsScript.run_raw_windows
    rw [hGP]
  · unfold PsScript.run_raw_windows
    rw [hGP]
  · unfold PsScript.run_windows PsScript.run_raw_windows
    rw [hGP]
    rfl

/-- Witness for C4: concrete environments where (a) `PATH` exists but has
no interpreter entry and `SYSTEMROOT` is unset, (b)/(c) a `PATH` directory
has an entry with the interpreter's name on each target. -/
theorem claim_C4_not_found_vs_bare_name_witness :
    (({ args := ["-Command", "-"], hidden := true, print_commands := false } :
        PsScript).run_raw_windows
        (fun k => if k = "PATH" then some "C:\\x".data else none) (fun _ => false)
        (fun _ _ => .ioErr ⟨""⟩) []).outcome = .err .PowershellNotFound ∧
    (({ args := ["-Command", "-"], hidden := true, print_commands := false } :
        PsScript).run_raw_windows
        (fun k => if k = "PATH" then some "C:\\x".data else none) (fun _ => false)
        (fun _ _ => .ioErr ⟨""⟩) []).spawned = false ∧
    ({ args := ["-Command", "-"], hidden := true, print_commands := false } :
        PsScript).run_windows
        (fun k => if k = "PATH" then some "C:\\x".data else none) (fun _ => false)
        (fun _ _ => .ioErr ⟨""⟩) [] = .err .PowershellNotFound ∧
    get_powershell_path_windows
        (fun k => if k = "PATH" then some "C:\\pd".data else none)
        (fun q => q == "C:\\pd\\PowerShell".data) = .ok POWERSHELL_NAME_WINDOWS ∧
    get_powershell_path_unix
        (fun k => if k = "PATH" then some "/u".data else none)
        (fun q => q == "/u/pwsh".data) = .ok POWERSHELL_NAME_UNIX :=
  claim_C4_not_found_vs_bare_name
    { args := ["-Command", "-"], hidden := true, print_commands := false } []
    (fun _ _ => .ioErr ⟨""⟩)
    (fun k => if k = "PATH" then some "C:\\x".data else none) (fun _ => false)
    "C:\\x".data rfl (by decide) (fun root h => by simp at h)
    (fun k => if k = "PATH" then some "C:\\pd".data else none)
    (fun q => q == "C:\\pd\\PowerShell".data) "C:\\pd".data "C:\\pd".data
    rfl (by decide) (by decide)
    (fun k => if k = "PATH" then some "/u".data else none)
    (fun q => q == "/u/pwsh".data) "/u".data "/u".data
    rfl (by decide) (by decide)

/-- C10: for scripts whose line bodies contain no `\n` and do not end in
`\r`, joining with `\r\n` and joining with `\n` give the same parsed lines,
the same streamer trace, and byte-for-byte the same child-stdin writes: the
separator's trailing `\r` is stripped and each forwarded line is terminated
by a single `\n`. -/
theorem claim_C10_crlf_lf_same_child_stdin (ls : List (List Char)) (e : Bool)
    (h : ∀ l ∈ ls, '\n' ∉ l ∧ l.getLast? ≠ some '\r') :
    rustLines (joinSep ['\r', '\n'] ls) = rustLines (joinSep ['\n'] ls) ∧
    streamScript e (rustLines (joinSep ['\r', '\n'] ls)) =
      streamScript e (rustLines (joinSep ['\n'] ls)) ∧
    childWrites (streamScript e (rustLines (joinSep ['\r', '\n'] ls))) =
      (rustLines (joinSep ['\n'] ls)).map (fun l => l ++ ['\n']) := by
  have hEq := rustLines_joinSep_crlf_eq_lf ls h
  refine ⟨hEq, by rw [hEq], ?_⟩
  rw [hEq, childWrites_streamScript]

/-- Witness for C10 at a concrete two-line script. -/
theorem claim_C10_crlf_lf_same_child_stdin_witness :
    rustLines (joinSep ['\r', '\n'] ["ab".data, "c".data]) =
      rustLines (joinSep ['\n'] ["ab".data, "c".data]) ∧
    streamScript true (rustLines (joinSep ['\r', '\n'] ["ab".data, "c".data])) =
      streamScript true (rustLines (joinSep ['\n'] ["ab".data, "c".data])) ∧
    childWrites (streamScript true (rustLines (joinSep ['\r', '\n'] ["ab".data, "c".data]))) =
      (rustLines (joinSep ['\n'] ["ab".data, "c".data])).map (fun l => l ++ ['\n']) :=
  claim_C10_crlf_lf_same_child_stdin ["ab".data, "c".data] true (by decide)

end PowershellScript
